import Mathlib

/-!
Shallow embedding of the upload handlers of the tubely file-storage
backend (Go): the thumbnail upload handler (disk-backed variant and
in-memory-map variant), the video upload handler (S3 variant with
ffprobe-based aspect classification, and the plain S3 variant), and the
`getVideoAspectRatio` media prober.

External collaborators (JWT validation, the record database, the S3
client, `ffprobe`, `os` calls) are modelled by their outcomes, carried in
a request/environment structure; each handler is a pure function from
that structure to an HTTP-level result together with the ordered list of
side effects it performed.
-/

namespace Tubely

/-- `const maxVideoSize = 1 << 30` (1 GB), upper bound on a video upload. -/
def maxVideoSize : Nat := 1 <<< 30

/-- `const maxMemory = 10 << 20` (10 MB), memory threshold handed to
`ParseMultipartForm` by the thumbnail handlers. -/
def maxMemory : Nat := 10 <<< 20

/-- `Portrait = "9:16"` preset string. -/
def Portrait : String := "9:16"

/-- `Landscape = "16:9"` preset string. -/
def Landscape : String := "16:9"

/-- A persisted video record: owner plus the two optional asset
references (`ThumbnailURL`, `VideoURL`). The record identifier is kept
outside (as the request's `videoID`). -/
structure Video where
  userID : Nat
  thumbnailURL : Option String
  videoURL : Option String
  deriving DecidableEq, Repr

/-- One stream object of the ffprobe JSON report: `width`, `height` are
Go `int`s (JSON may report zero or negative values). -/
structure FFStream where
  width : Int
  height : Int
  deriving DecidableEq, Repr

/-- The outcome of running `ffprobe` and JSON-unmarshalling its stdout:
the tool itself can fail, the output can fail to parse, or a list of
stream objects is obtained. -/
inductive ProbeOutcome where
  | runError
  | parseError
  | streams (l : List FFStream)
  deriving DecidableEq, Repr

/-- The distinct error exits of `getVideoAspectRatio`:
`failed to run ffprobe`, `failed to parse ffprobe output`,
`no streamsa found in video`, `no video stream with valid dimensions
found`. -/
inductive ProbeError where
  | ffprobeFailure
  | parseFailure
  | noStreamsFound
  | noValidStream
  deriving DecidableEq, Repr

/-- The inline `gcd` closure of `getVideoAspectRatio`:
`for b != 0 { a, b = b, a%b }; return a` (called on positive ints only,
embedded on `Nat`). -/
def gcdLoop (a b : Nat) : Nat :=
  if h : b = 0 then a else gcdLoop b (a % b)
  termination_by b
  decreasing_by exact Nat.mod_lt a (Nat.pos_of_ne_zero h)

/-- Loop body applied to the selected stream: reduce by the gcd and
format `"%d:%d"`. -/
def streamRatio (w h : Nat) : String :=
  let divisor := gcdLoop w h
  toString (w / divisor) ++ ":" ++ toString (h / divisor)

/-- The `for _, stream := range result.Streams` scan: first stream with
`stream.Width > 0 && stream.Height > 0` yields its reduced ratio. -/
def firstUsableRatio : List FFStream → Option String
  | [] => none
  | s :: rest =>
      if 0 < s.width ∧ 0 < s.height then
        some (streamRatio s.width.toNat s.height.toNat)
      else firstUsableRatio rest

/-- `getVideoAspectRatio` on the probe outcome: run failure and parse
failure are surfaced as distinct errors; an empty stream list yields the
`no streamsa found in video` error; a non-empty list with no usable
stream yields the `no video stream with valid dimensions found` error;
otherwise the first usable stream's reduced `w:h` string is returned. -/
def getVideoAspectRatio (p : ProbeOutcome) : Except ProbeError String :=
  match p with
  | .runError => .error .ffprobeFailure
  | .parseError => .error .parseFailure
  | .streams l =>
      if l.isEmpty then .error .noStreamsFound
      else
        match firstUsableRatio l with
        | some r => .ok r
        | none => .error .noValidStream

/-- The classification step of `handlerUploadVideo` (part_000):
`aspect := "portrait"; if aspectRatio == Landscape { aspect = "landscape" }`. -/
def classifyAspect (aspectRatio : String) : String :=
  if aspectRatio = Landscape then "landscape" else "portrait"

/-- Classification as the specification words it: ratio `16:9` maps to
landscape, ratio `9:16` to portrait, anything else to unclassified
(exact match against the two presets). Stated from the spec to compare
against `classifyAspect`, the classification the code computes. -/
def specClassification (ratio : String) : String :=
  if ratio = Landscape then "landscape"
  else if ratio = Portrait then "portrait"
  else "unclassified"

/-- How a handler run ends: an HTTP response (status code plus the
message passed to `respondWithError` / a success marker), or a Go panic
(nil-pointer dereference). Apostrophes are elided from the Go message
literals. -/
inductive HandlerResult where
  | response (status : Nat) (msg : String)
  | panicked
  deriving DecidableEq, Repr

/-- Side effects a handler performs, in program order: local asset file
creation, a `db.UpdateVideo` call (with the record passed and whether the
call succeeded), an `os.Remove` call (with path and success), an S3
upload attempt (with object key and success), and the deferred removal
of the temporary staging file. -/
inductive Event where
  | fileCreated (path : String)
  | dbUpdate (v : Video) (ok : Bool)
  | fileRemove (path : String) (ok : Bool)
  | s3Upload (key : String) (ok : Bool)
  | tempRemoved (path : String)
  deriving DecidableEq, Repr

/-- The record store state after a handler run: the stored record starts
as `prior` (what `GetVideo` returned) and is replaced by each successful
`UpdateVideo` call in the event trace. -/
def finalDB (prior : Option Video) (evs : List Event) : Option Video :=
  evs.foldl
    (fun db e =>
      match e with
      | Event.dbUpdate v true => some v
      | _ => db)
    prior

/-- The path/URL helpers of the repository (`getAssetPath`,
`getAssetDiskPath`, `getAssetURL`, `getAssetFromURL`), not part of the
handler files; kept abstract and quantified over in the theorems. -/
structure AssetHelpers where
  getAssetPath : String → String → String
  getAssetDiskPath : String → String
  getAssetURL : String → String
  getAssetFromURL : String → String

/-- The `thumbnail` struct of the in-memory variant: raw bytes plus the
declared media type. -/
structure Thumb where
  data : List Nat
  mediaType : String
  deriving DecidableEq, Repr

/-- Go map write `m[k] = v` on an association-list model of
`videoThumbnails`. -/
def mapSet : List (Nat × Thumb) → Nat → Thumb → List (Nat × Thumb)
  | [], k, v => [(k, v)]
  | (k0, v0) :: rest, k, v =>
      if k0 = k then (k, v) :: rest else (k0, v0) :: mapSet rest k v

/-- Go map `delete(m, k)`. -/
def mapDelete : List (Nat × Thumb) → Nat → List (Nat × Thumb)
  | [], _ => []
  | (k0, v0) :: rest, k =>
      if k0 = k then rest else (k0, v0) :: mapDelete rest k

/-- Go map read `m[k]`. -/
def mapLookup : List (Nat × Thumb) → Nat → Option Thumb
  | [], _ => none
  | (k0, v0) :: rest, k => if k0 = k then some v0 else mapLookup rest k

/-- Environment/outcome record for one request to the disk-backed
thumbnail handler: each field is the outcome of the corresponding
external call, in the order the handler makes them. `mediaType` is the
result of `mime.ParseMediaType` on the part's Content-Type header
(empty string when parsing fails). `bodySize` and `parseMultipartErr`
describe the multipart body; the handler receives them but — as in the
source, where the return value of `r.ParseMultipartForm(maxMemory)` is
discarded — never branches on them. -/
structure ThumbDiskReq where
  validVideoID : Bool
  videoID : Nat
  tokenFound : Bool
  jwtValid : Bool
  userID : Nat
  bodySize : Nat
  parseMultipartErr : Bool
  formFileOK : Bool
  mediaType : String
  dbVideo : Option Video
  randOK : Bool
  randomBase64String : String
  createOK : Bool
  copyOK : Bool
  updateOK : Bool
  removeOK : Bool
  deriving DecidableEq, Repr

/-- `handlerUploadThumbnail`, disk-backed variant: validates the ID,
token and JWT, fetches the form file, checks the parsed media type
against the jpeg/png allow-list, loads the record and checks ownership,
generates the random asset name, writes the file, dereferences the
record's previous `ThumbnailURL` (a nil pointer panics), updates the
record, then removes the previous asset from disk. Returns the result
and the ordered side-effect trace. -/
def handlerUploadThumbnailDisk (hf : AssetHelpers) (r : ThumbDiskReq) :
    HandlerResult × List Event :=
  if ¬ r.validVideoID then (.response 400 "Invalid ID", [])
  else if ¬ r.tokenFound then (.response 401 "Couldnt find JWT", [])
  else if ¬ r.jwtValid then (.response 401 "Couldnt validate JWT", [])
  else if ¬ r.formFileOK then
    (.response 500 "something went wrong retrieving the form data", [])
  else if r.mediaType = "" then
    (.response 400 "Missing Content-Type for thumbnail", [])
  else if r.mediaType ≠ "image/jpeg" ∧ r.mediaType ≠ "image/png" then
    (.response 400 "wrong image type for thumbnail", [])
  else
    match r.dbVideo with
    | none => (.response 404 "Video not found", [])
    | some videoData =>
        if videoData.userID ≠ r.userID then
          (.response 401 "Unauthorized for this video", [])
        else if ¬ r.randOK then
          (.response 500 "Error creating thumbnail random ID", [])
        else
          let assetPath := hf.getAssetPath r.randomBase64String r.mediaType
          let assetDiskPath := hf.getAssetDiskPath assetPath
          if ¬ r.createOK then (.response 500 "Unable to create file", [])
          else if ¬ r.copyOK then
            (.response 500 "Error saving file", [Event.fileCreated assetDiskPath])
          else
            let thumbnailURL := hf.getAssetURL assetPath
            match videoData.thumbnailURL with
            | none => (.panicked, [Event.fileCreated assetDiskPath])
            | some oldURL =>
                let oldThumbnail := hf.getAssetFromURL oldURL
                let videoData' : Video :=
                  { videoData with thumbnailURL := some thumbnailURL }
                if ¬ r.updateOK then
                  (.response 500 "Couldnt update video data",
                   [Event.fileCreated assetDiskPath,
                    Event.dbUpdate videoData' false])
                else
                  let oldThumbnailPath := "./assets/" ++ oldThumbnail
                  if ¬ r.removeOK then
                    (.response 500 "Error removing old thumbnail",
                     [Event.fileCreated assetDiskPath,
                      Event.dbUpdate videoData' true,
                      Event.fileRemove oldThumbnailPath false])
                  else
                    (.response 200 "OK",
                     [Event.fileCreated assetDiskPath,
                      Event.dbUpdate videoData' true,
                      Event.fileRemove oldThumbnailPath true])

/-- Environment/outcome record for one request to the in-memory
thumbnail handler. `mediaType` here is the raw Content-Type header value
(this variant does not call `mime.ParseMediaType`). As in the disk
variant, the `ParseMultipartForm` outcome is received but discarded. -/
structure ThumbMemReq where
  validVideoID : Bool
  videoID : Nat
  tokenFound : Bool
  jwtValid : Bool
  userID : Nat
  bodySize : Nat
  parseMultipartErr : Bool
  formFileOK : Bool
  mediaType : String
  readAllOK : Bool
  imageData : List Nat
  dbVideo : Option Video
  port : String
  updateOK : Bool
  deriving DecidableEq, Repr

/-- `handlerUploadThumbnail`, in-memory variant: validates ID, token and
JWT, fetches the form file, rejects only an empty Content-Type header,
reads the bytes, loads the record and checks ownership, stores the
thumbnail in the `videoThumbnails` map, updates the record; on update
failure it deletes the just-written map entry. Returns the result and
the map state after the request. -/
def handlerUploadThumbnailMem (r : ThumbMemReq)
    (videoThumbnails : List (Nat × Thumb)) :
    HandlerResult × List (Nat × Thumb) :=
  if ¬ r.validVideoID then (.response 400 "Invalid ID", videoThumbnails)
  else if ¬ r.tokenFound then
    (.response 401 "Couldnt find JWT", videoThumbnails)
  else if ¬ r.jwtValid then
    (.response 401 "Couldnt validate JWT", videoThumbnails)
  else if ¬ r.formFileOK then
    (.response 500 "something went wrong retrieving the form data",
     videoThumbnails)
  else if r.mediaType = "" then
    (.response 400 "Missing Content-Type for thumbnail", videoThumbnails)
  else if ¬ r.readAllOK then
    (.response 500 "Couldnt read thumbnail file", videoThumbnails)
  else
    match r.dbVideo with
    | none => (.response 404 "Video not found", videoThumbnails)
    | some videoData =>
        if videoData.userID ≠ r.userID then
          (.response 401 "Unauthorized for this video", videoThumbnails)
        else
          let m1 := mapSet videoThumbnails r.videoID
            { data := r.imageData, mediaType := r.mediaType }
          let newThumbnailURL :=
            "http://localhost:" ++ r.port ++ "/api/thumbnails/" ++
              toString r.videoID
          let videoData' : Video :=
            { videoData with thumbnailURL := some newThumbnailURL }
          if ¬ r.updateOK then
            (.response 500 "Couldnt update video data",
             mapDelete m1 r.videoID)
          else (.response 200 "OK", m1)

/-- Environment/outcome record for one request to a video upload
handler. `bodySize` is the total request body size seen by
`http.MaxBytesReader`; `multipartMalformed` covers the other failure
modes of `ParseMultipartForm`. `mediaType` is the result of
`mime.ParseMediaType` on the part header. `probe` is only consulted by
the variant that calls `getVideoAspectRatio`. -/
structure VideoReq where
  validVideoID : Bool
  videoID : Nat
  tokenFound : Bool
  jwtValid : Bool
  userID : Nat
  bodySize : Nat
  multipartMalformed : Bool
  dbVideo : Option Video
  formFileOK : Bool
  mediaType : String
  createTempOK : Bool
  tempFileName : String
  copyOK : Bool
  probe : ProbeOutcome
  seekOK : Bool
  randOK : Bool
  randomBase64String : String
  s3UploadOK : Bool
  s3Location : String
  updateOK : Bool
  deriving DecidableEq, Repr

/-- Body of the aspect-classifying video handler after the temporary
file has been created (the part covered by the
`defer os.Remove(tempFile.Name())`): copy, probe, seek, random key,
classify, S3 upload under `aspect/key`, record update. -/
def uploadVideoBodyS3 (r : VideoReq) (videoData : Video) :
    HandlerResult × List Event :=
  if ¬ r.copyOK then (.response 500 "Error copying file", [])
  else
    match getVideoAspectRatio r.probe with
    | .error _ =>
        (.response 500 "Failed to get aspect ratio of video", [])
    | .ok aspectRatio =>
        if ¬ r.seekOK then
          (.response 500 "Error seeking to start of video", [])
        else if ¬ r.randOK then
          (.response 500 "Error creating video random ID", [])
        else
          let aspect := classifyAspect aspectRatio
          let key := aspect ++ "/" ++ r.randomBase64String
          if ¬ r.s3UploadOK then
            (.response 500 "Error uploading video to server",
             [Event.s3Upload key false])
          else
            let videoData' : Video :=
              { videoData with videoURL := some r.s3Location }
            if ¬ r.updateOK then
              (.response 500 "Couldnt update video data",
               [Event.s3Upload key true, Event.dbUpdate videoData' false])
            else
              (.response 201 "Created",
               [Event.s3Upload key true, Event.dbUpdate videoData' true])

/-- `handlerUploadVideo`, aspect-classifying variant (part_000):
validates ID, token and JWT, enforces the 1 GB bound via
`MaxBytesReader` + `ParseMultipartForm`, loads the record and checks
ownership, fetches the form file, enforces the `video/mp4` content type,
creates the temporary staging file, and runs the staged body; the
deferred `os.Remove(tempFile.Name())` fires on every exit past the
successful `CreateTemp`. -/
def handlerUploadVideoS3 (r : VideoReq) : HandlerResult × List Event :=
  if ¬ r.validVideoID then (.response 400 "Invalid video ID", [])
  else if ¬ r.tokenFound then (.response 401 "Couldnt find JWT", [])
  else if ¬ r.jwtValid then (.response 401 "Couldnt validate JWT", [])
  else if maxVideoSize < r.bodySize ∨ r.multipartMalformed then
    (.response 400 "File size too big", [])
  else
    match r.dbVideo with
    | none => (.response 404 "Video not found", [])
    | some videoData =>
        if videoData.userID ≠ r.userID then
          (.response 401 "Unauthorized for this video", [])
        else if ¬ r.formFileOK then
          (.response 500 "something went wrong retrieving the form data", [])
        else if r.mediaType ≠ "video/mp4" then
          (.response 400 "wrong content type for video", [])
        else if ¬ r.createTempOK then
          (.response 500 "Error creating file", [])
        else
          let res := uploadVideoBodyS3 r videoData
          (res.1, res.2 ++ [Event.tempRemoved r.tempFileName])

/-- Body of the plain video handler (handler_upload_video.go) after the
temporary file has been created: copy, seek, random key, S3 upload under
the bare random key, record update. No probe and no classification. -/
def uploadVideoBodyGo (r : VideoReq) (videoData : Video) :
    HandlerResult × List Event :=
  if ¬ r.copyOK then (.response 500 "Error copying file", [])
  else if ¬ r.seekOK then
    (.response 500 "Error seeking to start of video", [])
  else if ¬ r.randOK then
    (.response 500 "Error creating video random ID", [])
  else
    let key := r.randomBase64String
    if ¬ r.s3UploadOK then
      (.response 500 "Error uploading video to server",
       [Event.s3Upload key false])
    else
      let videoData' : Video :=
        { videoData with videoURL := some r.s3Location }
      if ¬ r.updateOK then
        (.response 500 "Couldnt update video data",
         [Event.s3Upload key true, Event.dbUpdate videoData' false])
      else
        (.response 201 "Created",
         [Event.s3Upload key true, Event.dbUpdate videoData' true])

/-- `handlerUploadVideo`, plain variant (handler_upload_video.go): same
validation pipeline as the aspect-classifying variant, then the staged
body without probing; the deferred temp-file removal fires on every exit
past the successful `CreateTemp`. -/
def handlerUploadVideoGo (r : VideoReq) : HandlerResult × List Event :=
  if ¬ r.validVideoID then (.response 400 "Invalid video ID", [])
  else if ¬ r.tokenFound then (.response 401 "Couldnt find JWT", [])
  else if ¬ r.jwtValid then (.response 401 "Couldnt validate JWT", [])
  else if maxVideoSize < r.bodySize ∨ r.multipartMalformed then
    (.response 400 "File size too big", [])
  else
    match r.dbVideo with
    | none => (.response 404 "Video not found", [])
    | some videoData =>
        if videoData.userID ≠ r.userID then
          (.response 401 "Unauthorized for this video", [])
        else if ¬ r.formFileOK then
          (.response 500 "something went wrong retrieving the form data", [])
        else if r.mediaType ≠ "video/mp4" then
          (.response 400 "wrong content type for video", [])
        else if ¬ r.createTempOK then
          (.response 500 "Error creating file", [])
        else
          let res := uploadVideoBodyGo r videoData
          (res.1, res.2 ++ [Event.tempRemoved r.tempFileName])

/-! Concrete sample instances used by witnesses and counterexamples. -/

/-- A record with both asset references present, owned by user 7. -/
def sampleVideo : Video :=
  { userID := 7, thumbnailURL := some "old-thumb", videoURL := some "old-video" }

/-- Concrete asset helpers for evaluating the disk thumbnail handler. -/
def idHelpers : AssetHelpers :=
  { getAssetPath := fun name mt => name ++ "." ++ mt
    getAssetDiskPath := fun p => "./assets/" ++ p
    getAssetURL := fun p => "http://localhost/assets/" ++ p
    getAssetFromURL := fun u => u }

/-- A disk-thumbnail request in which every external call succeeds. -/
def sampleThumbDiskReq : ThumbDiskReq :=
  { validVideoID := true, videoID := 1, tokenFound := true, jwtValid := true,
    userID := 7, bodySize := 1000, parseMultipartErr := false,
    formFileOK := true, mediaType := "image/png",
    dbVideo := some sampleVideo, randOK := true,
    randomBase64String := "rand", createOK := true, copyOK := true,
    updateOK := true, removeOK := true }

/-- An in-memory-thumbnail request in which every external call succeeds. -/
def sampleThumbMemReq : ThumbMemReq :=
  { validVideoID := true, videoID := 1, tokenFound := true, jwtValid := true,
    userID := 7, bodySize := 1000, parseMultipartErr := false,
    formFileOK := true, mediaType := "image/png", readAllOK := true,
    imageData := [1, 2, 3], dbVideo := some sampleVideo, port := "8091",
    updateOK := true }

/-- A video-upload request in which every external call succeeds. -/
def sampleVideoReq : VideoReq :=
  { validVideoID := true, videoID := 1, tokenFound := true, jwtValid := true,
    userID := 7, bodySize := 1000, multipartMalformed := false,
    dbVideo := some sampleVideo, formFileOK := true, mediaType := "video/mp4",
    createTempOK := true, tempFileName := "tubely-upload.mp4", copyOK := true,
    probe := .streams [{ width := 1920, height := 1080 }], seekOK := true,
    randOK := true, randomBase64String := "rand", s3UploadOK := true,
    s3Location := "s3-location", updateOK := true }

/-- A prior in-memory thumbnail map already holding an entry for video 1. -/
def priorThumbMap : List (Nat × Thumb) :=
  [(1, { data := [9], mediaType := "image/jpeg" })]

/-! Helper lemmas shared by the claim theorems. -/

theorem gcdLoop_eq_gcd (a b : Nat) : gcdLoop a b = Nat.gcd a b := by
  induction b using Nat.strong_induction_on generalizing a with
  | _ b ih =>
    rw [gcdLoop]
    split
    · next hb => subst hb; simp
    · next hb =>
        rw [ih (a % b) (Nat.mod_lt a (Nat.pos_of_ne_zero hb)) b]
        rw [Nat.gcd_comm b (a % b), ← Nat.gcd_rec, Nat.gcd_comm]

theorem streamRatio_eq (w h : Nat) :
    streamRatio w h =
      toString (w / Nat.gcd w h) ++ ":" ++ toString (h / Nat.gcd w h) := by
  simp [streamRatio, gcdLoop_eq_gcd]

theorem firstUsableRatio_none (l : List FFStream)
    (hl : ∀ s ∈ l, ¬ (0 < s.width ∧ 0 < s.height)) :
    firstUsableRatio l = none := by
  induction l with
  | nil => rfl
  | cons s rest ih =>
      rw [firstUsableRatio]
      rw [if_neg (hl s (List.mem_cons_self s rest))]
      exact ih fun t ht => hl t (List.mem_cons_of_mem s ht)

theorem firstUsableRatio_skip (pre : List FFStream) (l : List FFStream)
    (hpre : ∀ t ∈ pre, ¬ (0 < t.width ∧ 0 < t.height)) :
    firstUsableRatio (pre ++ l) = firstUsableRatio l := by
  induction pre with
  | nil => rfl
  | cons t rest ih =>
      rw [List.cons_append, firstUsableRatio]
      rw [if_neg (hpre t (List.mem_cons_self t rest))]
      exact ih fun u hu => hpre u (List.mem_cons_of_mem t hu)

theorem getVideoAspectRatio_first_usable (pre : List FFStream) (s : FFStream)
    (rest : List FFStream)
    (hpre : ∀ t ∈ pre, ¬ (0 < t.width ∧ 0 < t.height))
    (hw : 0 < s.width) (hh : 0 < s.height) :
    getVideoAspectRatio (.streams (pre ++ s :: rest)) =
      .ok (streamRatio s.width.toNat s.height.toNat) := by
  rw [getVideoAspectRatio]
  rw [if_neg (by simp)]
  rw [firstUsableRatio_skip pre (s :: rest) hpre]
  rw [firstUsableRatio, if_pos ⟨hw, hh⟩]

theorem mapDelete_mapSet_of_absent (m : List (Nat × Thumb)) (k : Nat)
    (v : Thumb) (h : mapLookup m k = none) :
    mapDelete (mapSet m k v) k = m := by
  induction m with
  | nil => simp [mapSet, mapDelete]
  | cons kv rest ih =>
      obtain ⟨k0, v0⟩ := kv
      rw [mapLookup] at h
      by_cases hk : k0 = k
      · rw [if_pos hk] at h
        exact absurd h (by simp)
      · rw [if_neg hk] at h
        rw [mapSet, if_neg hk, mapDelete, if_neg hk, ih h]

theorem getVideoAspectRatio_single (w h : Int) (hw : 0 < w) (hh : 0 < h) :
    getVideoAspectRatio (.streams [{ width := w, height := h }]) =
      .ok (streamRatio w.toNat h.toNat) :=
  getVideoAspectRatio_first_usable [] { width := w, height := h } []
    (by simp) hw hh

/-! Claim theorems. -/

/-- C4: for every pair of strictly positive integers (width, height) taken
from the selected stream, the prober outputs the ratio reduced by their
greatest common divisor as two positive integers: `streamRatio` formats
`w / gcd` and `h / gcd`, both strictly positive, coprime, and multiplying
back by the gcd recovers the inputs; a probe whose first stream carries
those dimensions returns exactly that ratio. -/
theorem c4_gcd_reduction (w h : Nat) (hw : 0 < w) (hh : 0 < h) :
    streamRatio w h =
      toString (w / Nat.gcd w h) ++ ":" ++ toString (h / Nat.gcd w h)
    ∧ 0 < w / Nat.gcd w h ∧ 0 < h / Nat.gcd w h
    ∧ Nat.Coprime (w / Nat.gcd w h) (h / Nat.gcd w h)
    ∧ w / Nat.gcd w h * Nat.gcd w h = w
    ∧ h / Nat.gcd w h * Nat.gcd w h = h
    ∧ getVideoAspectRatio (ProbeOutcome.streams [{ width := (w : Int), height := (h : Int) }])
        = .ok (streamRatio w h) := by
  have hg : 0 < Nat.gcd w h := Nat.gcd_pos_of_pos_left h hw
  refine ⟨by simp [streamRatio, gcdLoop_eq_gcd], ?_, ?_, ?_, ?_, ?_, ?_⟩
  · exact Nat.div_pos (Nat.le_of_dvd hw (Nat.gcd_dvd_left w h)) hg
  · exact Nat.div_pos (Nat.le_of_dvd hh (Nat.gcd_dvd_right w h)) hg
  · exact Nat.coprime_div_gcd_div_gcd hg
  · exact Nat.div_mul_cancel (Nat.gcd_dvd_left w h)
  · exact Nat.div_mul_cancel (Nat.gcd_dvd_right w h)
  · simp [getVideoAspectRatio, firstUsableRatio, hw, hh]

/-- Witness for C4: the coprime pair (7, 5) reduces to 7:5 and the pair
(3840, 2160) with a large common factor reduces to 16:9. -/
theorem c4_gcd_reduction_witness :
    streamRatio 7 5 = "7:5" ∧ streamRatio 3840 2160 = "16:9"
    ∧ (0 < (7 : Nat) ∧ 0 < (5 : Nat)) ∧ (0 < (3840 : Nat) ∧ 0 < (2160 : Nat)) := by
  have h1 := (c4_gcd_reduction 7 5 (by decide) (by decide)).1
  have h2 := (c4_gcd_reduction 3840 2160 (by decide) (by decide)).1
  refine ⟨?_, ?_, by decide, by decide⟩
  · rw [h1]; decide
  · rw [h2]; decide

/-- C6: the prober scans streams in reported order and selects the first
stream with both dimensions strictly positive; an empty report and a
report with only zero/negative-dimension streams yield the two
"no usable stream" errors, each distinct from the parse-failure and
tool-failure errors; no default classification is produced on those
paths. -/
theorem c6_stream_selection :
    (getVideoAspectRatio (.streams []) = .error .noStreamsFound)
    ∧ (getVideoAspectRatio .parseError = .error .parseFailure)
    ∧ (getVideoAspectRatio .runError = .error .ffprobeFailure)
    ∧ (∀ l : List FFStream, l ≠ [] →
        (∀ s ∈ l, ¬ (0 < s.width ∧ 0 < s.height)) →
        getVideoAspectRatio (.streams l) = .error .noValidStream)
    ∧ (∀ (pre : List FFStream) (s : FFStream) (rest : List FFStream),
        (∀ t ∈ pre, ¬ (0 < t.width ∧ 0 < t.height)) →
        0 < s.width → 0 < s.height →
        getVideoAspectRatio (.streams (pre ++ s :: rest)) =
          .ok (streamRatio s.width.toNat s.height.toNat))
    ∧ (ProbeError.noStreamsFound ≠ ProbeError.parseFailure
       ∧ ProbeError.noValidStream ≠ ProbeError.parseFailure
       ∧ ProbeError.noStreamsFound ≠ ProbeError.ffprobeFailure
       ∧ ProbeError.noValidStream ≠ ProbeError.ffprobeFailure
       ∧ ProbeError.noStreamsFound ≠ ProbeError.noValidStream) := by
  refine ⟨rfl, rfl, rfl, ?_, getVideoAspectRatio_first_usable, by decide⟩
  intro l hne hl
  rw [getVideoAspectRatio]
  rw [if_neg (by simpa using hne)]
  rw [firstUsableRatio_none l hl]

/-- Witness for C6: a report whose first stream has zero width and whose
second is 1920x1080 selects the second stream; a report with only the
zero-width stream gives the no-valid-dimensions error; the empty report
gives the no-streams error. -/
theorem c6_stream_selection_witness :
    getVideoAspectRatio
        (.streams [{ width := 0, height := 1080 }, { width := 1920, height := 1080 }])
      = .ok "16:9"
    ∧ getVideoAspectRatio (.streams [{ width := 0, height := 1080 }])
      = .error .noValidStream
    ∧ getVideoAspectRatio (.streams []) = .error .noStreamsFound := by
  have h1 := c6_stream_selection.2.2.2.2.1
    [{ width := 0, height := 1080 }] { width := 1920, height := 1080 } []
    (by decide) (by decide) (by decide)
  have h2 := c6_stream_selection.2.2.2.1 [{ width := 0, height := 1080 }]
    (by decide) (by decide)
  refine ⟨?_, h2, c6_stream_selection.1⟩
  rw [show ([{ width := 0, height := 1080 }] ++
      [({ width := 1920, height := 1080 } : FFStream)]) =
      [{ width := 0, height := 1080 }, { width := 1920, height := 1080 }] from rfl] at h1
  rw [h1]
  simp only [Except.ok.injEq]
  rw [streamRatio_eq]
  decide

/-- C1 (counterexample): the square video 1000x1000 probes to the reduced
ratio 1:1, which the code classifies as portrait, while the claimed
classification rule yields unclassified — so the exact two-preset rule of
the claim does not hold of the code. -/
theorem c1_classify_counterexample :
    getVideoAspectRatio (.streams [{ width := 1000, height := 1000 }]) = .ok "1:1"
    ∧ classifyAspect "1:1" = "portrait"
    ∧ specClassification "1:1" = "unclassified"
    ∧ classifyAspect "1:1" ≠ specClassification "1:1" := by
  refine ⟨?_, by decide, by decide, by decide⟩
  rw [getVideoAspectRatio_single 1000 1000 (by decide) (by decide)]
  simp only [Except.ok.injEq]
  rw [streamRatio_eq]
  decide

/-- C1 (amended): for every successfully probed video, a reduced ratio
equal to the 16:9 preset is classified landscape and every other reduced
ratio — including 9:16 — is classified portrait; no unclassified
classification exists in the code. -/
theorem c1_classify_amended (pre : List FFStream) (s : FFStream)
    (rest : List FFStream) (r : String)
    (hpre : ∀ t ∈ pre, ¬ (0 < t.width ∧ 0 < t.height))
    (hw : 0 < s.width) (hh : 0 < s.height)
    (hp : getVideoAspectRatio (.streams (pre ++ s :: rest)) = .ok r) :
    r = streamRatio s.width.toNat s.height.toNat
    ∧ (r = Landscape → classifyAspect r = "landscape")
    ∧ (r ≠ Landscape → classifyAspect r = "portrait")
    ∧ classifyAspect r ≠ "unclassified" := by
  have hsel := getVideoAspectRatio_first_usable pre s rest hpre hw hh
  rw [hp] at hsel
  refine ⟨by injection hsel, fun hr => by simp [classifyAspect, hr],
    fun hr => by simp [classifyAspect, hr], ?_⟩
  by_cases hr : r = Landscape <;> simp [classifyAspect, hr]

/-- Witness for C1 (amended): 1920x1080 probes to 16:9 and is classified
landscape; 1080x1920 probes to 9:16 and is classified portrait. -/
theorem c1_classify_amended_witness :
    classifyAspect "16:9" = "landscape" ∧ classifyAspect "9:16" = "portrait"
    ∧ getVideoAspectRatio (.streams [{ width := 1920, height := 1080 }]) = .ok "16:9"
    ∧ getVideoAspectRatio (.streams [{ width := 1080, height := 1920 }]) = .ok "9:16" := by
  have hp1 : getVideoAspectRatio (.streams [{ width := 1920, height := 1080 }])
      = .ok "16:9" := by
    rw [getVideoAspectRatio_single 1920 1080 (by decide) (by decide)]
    simp only [Except.ok.injEq]
    rw [streamRatio_eq]
    decide
  have hp2 : getVideoAspectRatio (.streams [{ width := 1080, height := 1920 }])
      = .ok "9:16" := by
    rw [getVideoAspectRatio_single 1080 1920 (by decide) (by decide)]
    simp only [Except.ok.injEq]
    rw [streamRatio_eq]
    decide
  have h1 := c1_classify_amended [] { width := 1920, height := 1080 } [] "16:9"
    (by decide) (by decide) (by decide) hp1
  have h2 := c1_classify_amended [] { width := 1080, height := 1920 } [] "9:16"
    (by decide) (by decide) (by decide) hp2
  exact ⟨h1.2.1 rfl, h2.2.2.1 (by decide), hp1, hp2⟩

/-- C3: for every video upload in which the S3 upload fails after all
earlier steps succeeded, both video handler variants return the 500
upload error, issue no `UpdateVideo` call, and leave the stored record —
in particular its video asset reference — unchanged from its prior
value. -/
theorem c3_upload_failure_no_commit (r : VideoReq) (v : Video)
    (h1 : r.validVideoID = true) (h2 : r.tokenFound = true)
    (h3 : r.jwtValid = true) (h4 : r.bodySize ≤ maxVideoSize)
    (h5 : r.multipartMalformed = false) (h6 : r.dbVideo = some v)
    (h7 : v.userID = r.userID) (h8 : r.formFileOK = true)
    (h9 : r.mediaType = "video/mp4") (h10 : r.createTempOK = true)
    (h11 : r.copyOK = true) (h12 : r.seekOK = true) (h13 : r.randOK = true)
    (h14 : r.s3UploadOK = false) :
    (∀ a, getVideoAspectRatio r.probe = Except.ok a →
      (handlerUploadVideoS3 r).1 = .response 500 "Error uploading video to server"
      ∧ (∀ w ok, Event.dbUpdate w ok ∉ (handlerUploadVideoS3 r).2)
      ∧ finalDB r.dbVideo (handlerUploadVideoS3 r).2 = r.dbVideo)
    ∧ ((handlerUploadVideoGo r).1 = .response 500 "Error uploading video to server"
      ∧ (∀ w ok, Event.dbUpdate w ok ∉ (handlerUploadVideoGo r).2)
      ∧ finalDB r.dbVideo (handlerUploadVideoGo r).2 = r.dbVideo) := by
  have h4n : ¬ (maxVideoSize < r.bodySize) := Nat.not_lt.mpr h4
  constructor
  · intro a ha
    refine ⟨?_, ?_, ?_⟩ <;>
      simp [handlerUploadVideoS3, uploadVideoBodyS3, finalDB, h1, h2, h3, h4n,
        h5, h6, h7, h8, h9, h10, h11, ha, h12, h13, h14]
  · refine ⟨?_, ?_, ?_⟩ <;>
      simp [handlerUploadVideoGo, uploadVideoBodyGo, finalDB, h1, h2, h3, h4n,
        h5, h6, h7, h8, h9, h10, h11, h12, h13, h14]

/-- Witness for C3: a fully valid request whose S3 upload fails yields
the 500 upload error and an unchanged stored record in both variants. -/
theorem c3_upload_failure_no_commit_witness :
    (handlerUploadVideoS3 { sampleVideoReq with s3UploadOK := false }).1
      = .response 500 "Error uploading video to server"
    ∧ finalDB (some sampleVideo)
        (handlerUploadVideoS3 { sampleVideoReq with s3UploadOK := false }).2
      = some sampleVideo
    ∧ (handlerUploadVideoGo { sampleVideoReq with s3UploadOK := false }).1
      = .response 500 "Error uploading video to server"
    ∧ finalDB (some sampleVideo)
        (handlerUploadVideoGo { sampleVideoReq with s3UploadOK := false }).2
      = some sampleVideo := by
  have hprobe : getVideoAspectRatio
      ({ sampleVideoReq with s3UploadOK := false } : VideoReq).probe
      = Except.ok "16:9" := by
    show getVideoAspectRatio (.streams [{ width := 1920, height := 1080 }])
      = Except.ok "16:9"
    rw [getVideoAspectRatio_single 1920 1080 (by decide) (by decide)]
    simp only [Except.ok.injEq]
    rw [streamRatio_eq]
    decide
  obtain ⟨hs, hg⟩ := c3_upload_failure_no_commit
    { sampleVideoReq with s3UploadOK := false } sampleVideo
    rfl rfl rfl (by decide) rfl rfl rfl rfl rfl rfl rfl rfl rfl rfl
  obtain ⟨e1, _, e3⟩ := hs "16:9" hprobe
  exact ⟨e1, e3, hg.1, hg.2.2⟩

/-- C5: whenever the temporary staging file is successfully created (all
validation up to that point having passed), both video handler variants
end their side-effect trace with the deferred removal of that file — on
the success path and on every later failure path alike. -/
theorem c5_temp_file_removed (r : VideoReq) (v : Video)
    (h1 : r.validVideoID = true) (h2 : r.tokenFound = true)
    (h3 : r.jwtValid = true) (h4 : r.bodySize ≤ maxVideoSize)
    (h5 : r.multipartMalformed = false) (h6 : r.dbVideo = some v)
    (h7 : v.userID = r.userID) (h8 : r.formFileOK = true)
    (h9 : r.mediaType = "video/mp4") (h10 : r.createTempOK = true) :
    (handlerUploadVideoS3 r).2.getLast? = some (Event.tempRemoved r.tempFileName)
    ∧ Event.tempRemoved r.tempFileName ∈ (handlerUploadVideoS3 r).2
    ∧ (handlerUploadVideoGo r).2.getLast? = some (Event.tempRemoved r.tempFileName)
    ∧ Event.tempRemoved r.tempFileName ∈ (handlerUploadVideoGo r).2 := by
  have h4n : ¬ (maxVideoSize < r.bodySize) := Nat.not_lt.mpr h4
  have hS : handlerUploadVideoS3 r =
      ((uploadVideoBodyS3 r v).1,
        (uploadVideoBodyS3 r v).2 ++ [Event.tempRemoved r.tempFileName]) := by
    simp [handlerUploadVideoS3, h1, h2, h3, h4n, h5, h6, h7, h8, h9, h10]
  have hG : handlerUploadVideoGo r =
      ((uploadVideoBodyGo r v).1,
        (uploadVideoBodyGo r v).2 ++ [Event.tempRemoved r.tempFileName]) := by
    simp [handlerUploadVideoGo, h1, h2, h3, h4n, h5, h6, h7, h8, h9, h10]
  rw [hS, hG]
  refine ⟨?_, ?_, ?_, ?_⟩ <;>
    simp [List.getLast?_concat]

/-- Witness for C5: the fully successful request stages the file and its
trace ends with the deferred staging-file removal in both variants. -/
theorem c5_temp_file_removed_witness :
    (handlerUploadVideoS3 sampleVideoReq).2.getLast?
      = some (Event.tempRemoved "tubely-upload.mp4")
    ∧ (handlerUploadVideoGo sampleVideoReq).2.getLast?
      = some (Event.tempRemoved "tubely-upload.mp4") := by
  have h := c5_temp_file_removed sampleVideoReq sampleVideo
    rfl rfl rfl (by decide) rfl rfl rfl rfl rfl rfl
  exact ⟨h.1, h.2.2.1⟩

/-- C2 (counterexample): the in-memory thumbnail handler accepts a
`text/plain` upload — a content type outside the thumbnail allow-list —
and completes with 200, so the per-kind allow-list is not enforced in
every handler variant. -/
theorem c2_allowlist_counterexample :
    ({ sampleThumbMemReq with mediaType := "text/plain" } : ThumbMemReq).mediaType
        = "text/plain"
    ∧ (handlerUploadThumbnailMem
        { sampleThumbMemReq with mediaType := "text/plain" } []).1
      = .response 200 "OK"
    ∧ (handlerUploadThumbnailMem
        { sampleThumbMemReq with mediaType := "text/plain" } []).1
      ≠ .response 400 "wrong image type for thumbnail" := by
  refine ⟨rfl, rfl, by decide⟩

/-- C2 (amended): the disk-backed thumbnail handler and both video
handler variants enforce the per-kind allow-list (thumbnails: image/jpeg
or image/png; videos: video/mp4), rejecting any other or empty value
with a 400; the in-memory thumbnail variant rejects only an empty
Content-Type header and accepts any non-empty content type. -/
theorem c2_content_type_amended :
    (∀ (hf : AssetHelpers) (r : ThumbDiskReq),
      r.validVideoID = true → r.tokenFound = true → r.jwtValid = true →
      r.formFileOK = true → r.mediaType ≠ "" →
      r.mediaType ≠ "image/jpeg" → r.mediaType ≠ "image/png" →
      (handlerUploadThumbnailDisk hf r).1
        = .response 400 "wrong image type for thumbnail")
    ∧ (∀ (hf : AssetHelpers) (r : ThumbDiskReq),
      r.validVideoID = true → r.tokenFound = true → r.jwtValid = true →
      r.formFileOK = true → r.mediaType = "" →
      (handlerUploadThumbnailDisk hf r).1
        = .response 400 "Missing Content-Type for thumbnail")
    ∧ (∀ (r : VideoReq) (v : Video),
      r.validVideoID = true → r.tokenFound = true → r.jwtValid = true →
      r.bodySize ≤ maxVideoSize → r.multipartMalformed = false →
      r.dbVideo = some v → v.userID = r.userID → r.formFileOK = true →
      r.mediaType ≠ "video/mp4" →
      (handlerUploadVideoS3 r).1 = .response 400 "wrong content type for video"
      ∧ (handlerUploadVideoGo r).1 = .response 400 "wrong content type for video")
    ∧ (∀ (r : ThumbMemReq) (m : List (Nat × Thumb)),
      r.validVideoID = true → r.tokenFound = true → r.jwtValid = true →
      r.formFileOK = true → r.mediaType = "" →
      (handlerUploadThumbnailMem r m).1
        = .response 400 "Missing Content-Type for thumbnail")
    ∧ (∀ (r : ThumbMemReq) (m : List (Nat × Thumb)) (v : Video),
      r.validVideoID = true → r.tokenFound = true → r.jwtValid = true →
      r.formFileOK = true → r.mediaType ≠ "" → r.readAllOK = true →
      r.dbVideo = some v → v.userID = r.userID → r.updateOK = true →
      (handlerUploadThumbnailMem r m).1 = .response 200 "OK") := by
  refine ⟨?_, ?_, ?_, ?_, ?_⟩
  · intro hf r g1 g2 g3 g4 g5 g6 g7
    simp [handlerUploadThumbnailDisk, g1, g2, g3, g4, g5, g6, g7]
  · intro hf r g1 g2 g3 g4 g5
    simp [handlerUploadThumbnailDisk, g1, g2, g3, g4, g5]
  · intro r v g1 g2 g3 g4 g5 g6 g7 g8 g9
    have g4n : ¬ (maxVideoSize < r.bodySize) := Nat.not_lt.mpr g4
    constructor <;>
      simp [handlerUploadVideoS3, handlerUploadVideoGo, g1, g2, g3, g4n, g5,
        g6, g7, g8, g9]
  · intro r m g1 g2 g3 g4 g5
    simp [handlerUploadThumbnailMem, g1, g2, g3, g4, g5]
  · intro r m v g1 g2 g3 g4 g5 g6 g7 g8 g9
    simp [handlerUploadThumbnailMem, g1, g2, g3, g4, g5, g6, g7, g8, g9]

/-- Witness for C2 (amended): a `text/plain` thumbnail is rejected by the
disk variant and a `text/plain` video part is rejected by both video
variants, while the in-memory variant accepts the same non-empty type;
an empty type is rejected everywhere. -/
theorem c2_content_type_amended_witness :
    (handlerUploadThumbnailDisk idHelpers
        { sampleThumbDiskReq with mediaType := "text/plain" }).1
      = .response 400 "wrong image type for thumbnail"
    ∧ (handlerUploadThumbnailDisk idHelpers
        { sampleThumbDiskReq with mediaType := "" }).1
      = .response 400 "Missing Content-Type for thumbnail"
    ∧ (handlerUploadVideoS3 { sampleVideoReq with mediaType := "text/plain" }).1
      = .response 400 "wrong content type for video"
    ∧ (handlerUploadThumbnailMem { sampleThumbMemReq with mediaType := "" } []).1
      = .response 400 "Missing Content-Type for thumbnail"
    ∧ (handlerUploadThumbnailMem
        { sampleThumbMemReq with mediaType := "text/plain" } []).1
      = .response 200 "OK" := by
  refine ⟨?_, ?_, ?_, ?_, ?_⟩
  · exact c2_content_type_amended.1 idHelpers
      { sampleThumbDiskReq with mediaType := "text/plain" }
      rfl rfl rfl rfl (by decide) (by decide) (by decide)
  · exact c2_content_type_amended.2.1 idHelpers
      { sampleThumbDiskReq with mediaType := "" } rfl rfl rfl rfl rfl
  · exact (c2_content_type_amended.2.2.1
      { sampleVideoReq with mediaType := "text/plain" } sampleVideo
      rfl rfl rfl (by decide) rfl rfl rfl rfl (by decide)).1
  · exact c2_content_type_amended.2.2.2.1
      { sampleThumbMemReq with mediaType := "" } [] rfl rfl rfl rfl rfl
  · exact c2_content_type_amended.2.2.2.2
      { sampleThumbMemReq with mediaType := "text/plain" } [] sampleVideo
      rfl rfl rfl rfl (by decide) rfl rfl rfl rfl

/-- C8 (counterexample): a disk-thumbnail request twice the video size
bound, whose `ParseMultipartForm` call reports an error, is nevertheless
processed to completion with 200 — the thumbnail handlers enforce no
request-size bound and discard the parse outcome. -/
theorem c8_size_counterexample :
    maxVideoSize <
      ({ sampleThumbDiskReq with
          bodySize := maxVideoSize + maxVideoSize,
          parseMultipartErr := true } : ThumbDiskReq).bodySize
    ∧ (handlerUploadThumbnailDisk idHelpers
        { sampleThumbDiskReq with
            bodySize := maxVideoSize + maxVideoSize,
            parseMultipartErr := true }).1
      = .response 200 "OK" := by
  exact ⟨by decide, rfl⟩

/-- C8 (amended): both video handler variants reject a request whose
body exceeds the 1 GB bound with the 400 size error; the thumbnail
handlers pass `maxMemory` to `ParseMultipartForm` only as a memory
threshold, ignore its result, and their outcome is entirely independent
of the request size and of the multipart parse outcome. -/
theorem c8_size_enforcement_amended :
    (∀ r : VideoReq,
      r.validVideoID = true → r.tokenFound = true → r.jwtValid = true →
      maxVideoSize < r.bodySize →
      (handlerUploadVideoS3 r).1 = .response 400 "File size too big"
      ∧ (handlerUploadVideoGo r).1 = .response 400 "File size too big")
    ∧ (∀ (hf : AssetHelpers) (r : ThumbDiskReq) (n : Nat) (b : Bool),
      handlerUploadThumbnailDisk hf
        { r with bodySize := n, parseMultipartErr := b }
        = handlerUploadThumbnailDisk hf r)
    ∧ (∀ (r : ThumbMemReq) (m : List (Nat × Thumb)) (n : Nat) (b : Bool),
      handlerUploadThumbnailMem
        { r with bodySize := n, parseMultipartErr := b } m
        = handlerUploadThumbnailMem r m) := by
  refine ⟨?_, ?_, ?_⟩
  · intro r g1 g2 g3 g4
    constructor <;>
      simp [handlerUploadVideoS3, handlerUploadVideoGo, g1, g2, g3, g4]
  · intro hf r n b
    rfl
  · intro r m n b
    rfl

/-- Witness for C8 (amended): a 2 GB video request is rejected with the
size error, and changing a thumbnail request's size and parse outcome
does not change the handler's behavior. -/
theorem c8_size_enforcement_amended_witness :
    (handlerUploadVideoS3
        { sampleVideoReq with bodySize := maxVideoSize + maxVideoSize }).1
      = .response 400 "File size too big"
    ∧ handlerUploadThumbnailDisk idHelpers
        { sampleThumbDiskReq with
            bodySize := maxVideoSize + maxVideoSize,
            parseMultipartErr := true }
      = handlerUploadThumbnailDisk idHelpers sampleThumbDiskReq := by
  refine ⟨?_, ?_⟩
  · exact (c8_size_enforcement_amended.1
      { sampleVideoReq with bodySize := maxVideoSize + maxVideoSize }
      rfl rfl rfl (by decide)).1
  · exact c8_size_enforcement_amended.2.1 idHelpers sampleThumbDiskReq
      (maxVideoSize + maxVideoSize) true

/-- C7: in every execution of the disk-thumbnail handler in which the
previous asset's file is removed (successfully or not), the side-effect
trace is exactly file-creation, then a successful `UpdateVideo` storing
the record that points at the new asset, then the removal — so deletion
happens only after the metadata update has succeeded — and a failed
removal is reported as the 500 removal error even though the stored
record already references the new asset. -/
theorem c7_remove_only_after_update (hf : AssetHelpers) (r : ThumbDiskReq)
    (p : String) (ok : Bool)
    (hmem : Event.fileRemove p ok ∈ (handlerUploadThumbnailDisk hf r).2) :
    (∃ dp w, (handlerUploadThumbnailDisk hf r).2 =
        [Event.fileCreated dp, Event.dbUpdate w true, Event.fileRemove p ok]
      ∧ finalDB r.dbVideo (handlerUploadThumbnailDisk hf r).2 = some w
      ∧ w.thumbnailURL =
          some (hf.getAssetURL (hf.getAssetPath r.randomBase64String r.mediaType)))
    ∧ (ok = false →
      (handlerUploadThumbnailDisk hf r).1
        = .response 500 "Error removing old thumbnail") := by
  by_cases c1 : r.validVideoID = true
  case neg => exact absurd hmem (by simp [handlerUploadThumbnailDisk, c1])
  by_cases c2 : r.tokenFound = true
  case neg => exact absurd hmem (by simp [handlerUploadThumbnailDisk, c1, c2])
  by_cases c3 : r.jwtValid = true
  case neg =>
    exact absurd hmem (by simp [handlerUploadThumbnailDisk, c1, c2, c3])
  by_cases c4 : r.formFileOK = true
  case neg =>
    exact absurd hmem (by simp [handlerUploadThumbnailDisk, c1, c2, c3, c4])
  by_cases c5 : r.mediaType = ""
  case pos =>
    exact absurd hmem
      (by simp [handlerUploadThumbnailDisk, c1, c2, c3, c4, c5])
  by_cases c6 : r.mediaType ≠ "image/jpeg" ∧ r.mediaType ≠ "image/png"
  case pos =>
    exact absurd hmem
      (by simp [handlerUploadThumbnailDisk, c1, c2, c3, c4, c5, c6])
  rcases hdb : r.dbVideo with _ | v
  · exact absurd hmem
      (by simp [handlerUploadThumbnailDisk, c1, c2, c3, c4, c5, c6, hdb])
  by_cases c8 : v.userID ≠ r.userID
  case pos =>
    exact absurd hmem
      (by simp [handlerUploadThumbnailDisk, c1, c2, c3, c4, c5, c6, hdb, c8])
  by_cases c9 : r.randOK = true
  case neg =>
    exact absurd hmem (by
      simp [handlerUploadThumbnailDisk, c1, c2, c3, c4, c5, c6, hdb, c8, c9])
  by_cases c10 : r.createOK = true
  case neg =>
    exact absurd hmem (by
      simp [handlerUploadThumbnailDisk, c1, c2, c3, c4, c5, c6, hdb, c8, c9,
        c10])
  by_cases c11 : r.copyOK = true
  case neg =>
    exact absurd hmem (by
      simp [handlerUploadThumbnailDisk, c1, c2, c3, c4, c5, c6, hdb, c8, c9,
        c10, c11])
  rcases hth : v.thumbnailURL with _ | u
  · exact absurd hmem (by
      simp [handlerUploadThumbnailDisk, c1, c2, c3, c4, c5, c6, hdb, c8, c9,
        c10, c11, hth])
  by_cases c13 : r.updateOK = true
  case neg =>
    exact absurd hmem (by
      simp [handlerUploadThumbnailDisk, c1, c2, c3, c4, c5, c6, hdb, c8, c9,
        c10, c11, hth, c13])
  rcases Bool.eq_false_or_eq_true r.removeOK with c14 | c14
  · have htr : (handlerUploadThumbnailDisk hf r).2 =
        [Event.fileCreated
            (hf.getAssetDiskPath (hf.getAssetPath r.randomBase64String r.mediaType)),
          Event.dbUpdate
            { v with thumbnailURL := some (hf.getAssetURL (hf.getAssetPath r.randomBase64String r.mediaType)) }
            true,
          Event.fileRemove ("./assets/" ++ hf.getAssetFromURL u) true] := by
      simp [handlerUploadThumbnailDisk, c1, c2, c3, c4, c5, c6, hdb, c8, c9,
        c10, c11, hth, c13, c14]
    rw [htr] at hmem
    simp only [List.mem_cons, List.not_mem_nil, or_false] at hmem
    rcases hmem with h | h | h
    · exact absurd h (by simp)
    · exact absurd h (by simp)
    · obtain ⟨hp, hok⟩ : p = "./assets/" ++ hf.getAssetFromURL u ∧ ok = true := by
        have h2 := h
        injection h2 with ha hb
        exact ⟨ha, hb⟩
      subst hp
      subst hok
      exact ⟨⟨_, _, htr, by rw [htr]; simp [finalDB], rfl⟩,
        fun h2 => Bool.noConfusion h2⟩
  · have htr : (handlerUploadThumbnailDisk hf r).2 =
        [Event.fileCreated
            (hf.getAssetDiskPath (hf.getAssetPath r.randomBase64String r.mediaType)),
          Event.dbUpdate
            { v with thumbnailURL := some (hf.getAssetURL (hf.getAssetPath r.randomBase64String r.mediaType)) }
            true,
          Event.fileRemove ("./assets/" ++ hf.getAssetFromURL u) false] := by
      simp [handlerUploadThumbnailDisk, c1, c2, c3, c4, c5, c6, hdb, c8, c9,
        c10, c11, hth, c13, c14]
    rw [htr] at hmem
    simp only [List.mem_cons, List.not_mem_nil, or_false] at hmem
    rcases hmem with h | h | h
    · exact absurd h (by simp)
    · exact absurd h (by simp)
    · obtain ⟨hp, hok⟩ : p = "./assets/" ++ hf.getAssetFromURL u ∧ ok = false := by
        have h2 := h
        injection h2 with ha hb
        exact ⟨ha, hb⟩
      subst hp
      subst hok
      refine ⟨⟨_, _, htr, by rw [htr]; simp [finalDB], rfl⟩, fun _ => ?_⟩
      simp [handlerUploadThumbnailDisk, c1, c2, c3, c4, c5, c6, hdb, c8, c9,
        c10, c11, hth, c13, c14]

/-- Witness for C7: a request whose removal call fails produces the
three-event trace ending in the failed removal, returns the 500 removal
error, and the stored record points at the new asset. -/
theorem c7_remove_only_after_update_witness :
    Event.fileRemove "./assets/old-thumb" false ∈
      (handlerUploadThumbnailDisk idHelpers
        { sampleThumbDiskReq with removeOK := false }).2
    ∧ (handlerUploadThumbnailDisk idHelpers
        { sampleThumbDiskReq with removeOK := false }).1
      = .response 500 "Error removing old thumbnail" := by
  have hmem : Event.fileRemove "./assets/old-thumb" false ∈
      (handlerUploadThumbnailDisk idHelpers
        { sampleThumbDiskReq with removeOK := false }).2 := by decide
  exact ⟨hmem, (c7_remove_only_after_update idHelpers
    { sampleThumbDiskReq with removeOK := false } "./assets/old-thumb" false
    hmem).2 rfl⟩

/-- C9: once the disk-thumbnail handler reaches the point where the new
file has been written, it dereferences the record's previous
`ThumbnailURL` unguarded: a record with an absent (nil) thumbnail
reference panics — the error-response branch is unreachable there —
while a record with a present reference never panics. -/
theorem c9_nil_thumbnail_panics (hf : AssetHelpers) (r : ThumbDiskReq)
    (v : Video)
    (h1 : r.validVideoID = true) (h2 : r.tokenFound = true)
    (h3 : r.jwtValid = true) (h4 : r.formFileOK = true)
    (h5 : r.mediaType = "image/jpeg" ∨ r.mediaType = "image/png")
    (h6 : r.dbVideo = some v) (h7 : v.userID = r.userID)
    (h8 : r.randOK = true) (h9 : r.createOK = true) (h10 : r.copyOK = true) :
    (v.thumbnailURL = none →
      (handlerUploadThumbnailDisk hf r).1 = HandlerResult.panicked)
    ∧ (∀ u, v.thumbnailURL = some u →
      (handlerUploadThumbnailDisk hf r).1 ≠ HandlerResult.panicked) := by
  have hne : r.mediaType ≠ "" := by
    rcases h5 with h | h <;> rw [h] <;> decide
  have hja : ¬ (r.mediaType ≠ "image/jpeg" ∧ r.mediaType ≠ "image/png") := by
    rcases h5 with h | h <;> simp [h]
  constructor
  · intro hnil
    simp [handlerUploadThumbnailDisk, h1, h2, h3, h4, hne, hja, h6, h7, h8,
      h9, h10, hnil]
  · intro u hu
    rcases Bool.eq_false_or_eq_true r.updateOK with hup | hup <;>
      rcases Bool.eq_false_or_eq_true r.removeOK with hrm | hrm <;>
      simp [handlerUploadThumbnailDisk, h1, h2, h3, h4, hne, hja, h6, h7,
        h8, h9, h10, hu, hup, hrm]

/-- Witness for C9: with the sample record (thumbnail reference present)
the handler does not panic; with the same record stripped of its
thumbnail reference it panics. -/
theorem c9_nil_thumbnail_panics_witness :
    (handlerUploadThumbnailDisk idHelpers
        { sampleThumbDiskReq with
            dbVideo := some { sampleVideo with thumbnailURL := none } }).1
      = HandlerResult.panicked
    ∧ (handlerUploadThumbnailDisk idHelpers sampleThumbDiskReq).1
      ≠ HandlerResult.panicked := by
  constructor
  · exact (c9_nil_thumbnail_panics idHelpers
      { sampleThumbDiskReq with
          dbVideo := some { sampleVideo with thumbnailURL := none } }
      { sampleVideo with thumbnailURL := none }
      rfl rfl rfl rfl (Or.inr rfl) rfl rfl rfl rfl rfl).1 rfl
  · exact (c9_nil_thumbnail_panics idHelpers sampleThumbDiskReq sampleVideo
      rfl rfl rfl rfl (Or.inr rfl) rfl rfl rfl rfl rfl).2 "old-thumb" rfl

/-- C10 (counterexample): when the record-persistence call fails, the
in-memory handler deletes the map entry for the video ID outright; if
the map already held a previous thumbnail for that ID, the store after
the failing request has lost it — it is not unchanged from its
pre-request state. -/
theorem c10_rollback_counterexample :
    (handlerUploadThumbnailMem { sampleThumbMemReq with updateOK := false }
        priorThumbMap).1
      = .response 500 "Couldnt update video data"
    ∧ (handlerUploadThumbnailMem { sampleThumbMemReq with updateOK := false }
        priorThumbMap).2 = []
    ∧ mapLookup priorThumbMap 1 = some { data := [9], mediaType := "image/jpeg" }
    ∧ (handlerUploadThumbnailMem { sampleThumbMemReq with updateOK := false }
        priorThumbMap).2 ≠ priorThumbMap := by
  exact ⟨rfl, rfl, rfl, by decide⟩

/-- C10 (amended): when the record-persistence call fails, the in-memory
handler deletes the entry under the video ID from the map it just wrote
and returns the 500 update error; the thumbnail store is unchanged from
its pre-request state exactly when it held no prior entry for that video
ID — a pre-existing entry is deleted, not restored. -/
theorem c10_rollback_amended (r : ThumbMemReq) (m : List (Nat × Thumb))
    (v : Video)
    (h1 : r.validVideoID = true) (h2 : r.tokenFound = true)
    (h3 : r.jwtValid = true) (h4 : r.formFileOK = true)
    (h5 : r.mediaType ≠ "") (h6 : r.readAllOK = true)
    (h7 : r.dbVideo = some v) (h8 : v.userID = r.userID)
    (h9 : r.updateOK = false) :
    (handlerUploadThumbnailMem r m).1 = .response 500 "Couldnt update video data"
    ∧ (handlerUploadThumbnailMem r m).2 =
        mapDelete (mapSet m r.videoID
          { data := r.imageData, mediaType := r.mediaType }) r.videoID
    ∧ (mapLookup m r.videoID = none → (handlerUploadThumbnailMem r m).2 = m) := by
  have hmain : handlerUploadThumbnailMem r m =
      (.response 500 "Couldnt update video data",
        mapDelete (mapSet m r.videoID
          { data := r.imageData, mediaType := r.mediaType }) r.videoID) := by
    simp [handlerUploadThumbnailMem, h1, h2, h3, h4, h5, h6, h7, h8, h9]
  rw [hmain]
  refine ⟨rfl, rfl, ?_⟩
  intro habs
  exact mapDelete_mapSet_of_absent m r.videoID _ habs

/-- Witness for C10 (amended): a failing update against an empty prior
map leaves the map empty — unchanged — and returns the 500 error. -/
theorem c10_rollback_amended_witness :
    (handlerUploadThumbnailMem { sampleThumbMemReq with updateOK := false } []).1
      = .response 500 "Couldnt update video data"
    ∧ (handlerUploadThumbnailMem { sampleThumbMemReq with updateOK := false } []).2
      = [] := by
  have h := c10_rollback_amended { sampleThumbMemReq with updateOK := false }
    [] sampleVideo rfl rfl rfl rfl (by decide) rfl rfl rfl rfl
  exact ⟨h.1, h.2.2 rfl⟩

end Tubely
